import Mathlib

/-!
# Verification of the MedScope-AI facility-locator feature

Shallow embedding of the "Find Nearby MRI Centre" feature
(`src/components/FindMRICentre.tsx`) and proofs of the specified
properties of its Distance Calculator, Locator Service, Search Filter
and Presentation Layer state transitions.

JavaScript numbers are modelled as real numbers (`ℝ`); strings as Lean
`String`; the platform geolocation callback as an explicit outcome value
fed to the state-transition function.
-/

namespace MedScope

/-- A latitude/longitude pair, as in the `{ lat, lng }` objects of the source. -/
structure Coordinate where
  lat : ℝ
  lng : ℝ

/-- A facility entry of the static directory `mriCentresData`, possibly
annotated with a computed `distance` (the `distance` field is `undefined`
— here `none` — until a location resolution succeeds). -/
structure Centre where
  name : String
  address : String
  coords : Coordinate
  distance : Option ℝ := none

/-- The static directory `mriCentresData` from the source. -/
noncomputable def mriCentresData : List Centre :=
  [ ⟨"Sonoclinic Diagnostic Center", "Opp. Vishwaraj Hospital, Loni Kalbhor", ⟨18.4556, 74.0219⟩, none⟩,
    ⟨"VishwaRaj Hospital", "Near Loni Railway Station, Loni Kalbhor", ⟨18.4571, 74.0253⟩, none⟩,
    ⟨"Advanced Imaging Pune", "456 FC Road, Pune", ⟨18.5244, 73.8413⟩, none⟩,
    ⟨"Sahyadri Super Speciality Hospital", "Deccan Gymkhana, Pune", ⟨18.5196, 73.8407⟩, none⟩,
    ⟨"Noble Hospital", "Hadapsar, Pune", ⟨18.5093, 73.9248⟩, none⟩ ]

/-- The two-argument arctangent, modelling the platform primitive
`Math.atan2(y, x)` on (non-NaN) numbers. -/
noncomputable def atan2 (y x : ℝ) : ℝ :=
  if 0 < x then Real.arctan (y / x)
  else if x < 0 then
    (if 0 ≤ y then Real.arctan (y / x) + Real.pi else Real.arctan (y / x) - Real.pi)
  else
    (if 0 < y then Real.pi / 2 else if y < 0 then -(Real.pi / 2) else 0)

/-- The intermediate value `a` of `getDistance` (the haversine of the
central angle). -/
noncomputable def haversineA (p1 p2 : Coordinate) : ℝ :=
  Real.sin ((p2.lat - p1.lat) * (Real.pi / 180) / 2) *
      Real.sin ((p2.lat - p1.lat) * (Real.pi / 180) / 2) +
    Real.cos (p1.lat * (Real.pi / 180)) * Real.cos (p2.lat * (Real.pi / 180)) *
      Real.sin ((p2.lng - p1.lng) * (Real.pi / 180) / 2) *
      Real.sin ((p2.lng - p1.lng) * (Real.pi / 180) / 2)

/-- `getDistance` from the source: haversine great-circle distance in km,
Earth radius 6371 km. -/
noncomputable def getDistance (p1 p2 : Coordinate) : ℝ :=
  6371 * (2 * atan2 (Real.sqrt (haversineA p1 p2)) (Real.sqrt (1 - haversineA p1 p2)))

/-- `String.prototype.toLowerCase()` as used on names, addresses and the
search term. -/
def jsToLower (s : String) : String := ⟨s.data.map Char.toLower⟩

/-- `String.prototype.includes(sub)`: substring containment. -/
def jsIncludes (s sub : String) : Bool := decide (sub.data <:+: s.data)

/-- The predicate of the `centres.filter(...)` call producing
`filteredCentres`: case-insensitive substring match of the search term
against `name` or `address`. -/
def matchesSearch (searchTerm : String) (c : Centre) : Bool :=
  jsIncludes (jsToLower c.name) (jsToLower searchTerm) ||
    jsIncludes (jsToLower c.address) (jsToLower searchTerm)

/-- `filteredCentres` from the source: the displayed list, recomputed on
every render from the stored `centres` and `searchTerm`. -/
def filteredCentres (centres : List Centre) (searchTerm : String) : List Centre :=
  centres.filter (matchesSearch searchTerm)

/-- The sort key used by the comparator `(a, b) => a.distance - b.distance`;
on the lists the code sorts, `distance` is always present. -/
noncomputable def distKey (c : Centre) : ℝ := c.distance.getD 0

/-- The `.map` step of the success callback: annotate every directory
entry with its distance from the resolved user location. -/
noncomputable def annotateWithDistance (loc : Coordinate) (directory : List Centre) : List Centre :=
  directory.map fun c => { c with distance := some (getDistance loc c.coords) }

/-- The `.sort((a, b) => a.distance - b.distance)` step. JavaScript
`Array.prototype.sort` is required to be stable (ECMA-262), so it is
modelled by a stable merge sort with `le a b ↔ comparator(a, b) ≤ 0`. -/
noncomputable def sortByDistance (l : List Centre) : List Centre :=
  l.mergeSort fun a b => decide (distKey a ≤ distKey b)

/-- The whole ranking pipeline of the success callback, over an arbitrary
directory (the code applies it to `mriCentresData`). -/
noncomputable def locateRanked (loc : Coordinate) (directory : List Centre) : List Centre :=
  sortByDistance (annotateWithDistance loc directory)

/-- The component state of `FindMRICentre`: the five `useState` hooks. -/
structure LocatorState where
  searchTerm : String
  centres : List Centre
  userLocation : Option Coordinate
  mapCenter : Coordinate
  isLoading : Bool

/-- `defaultCenter` from the source (Pune). -/
noncomputable def defaultCenter : Coordinate := ⟨18.5204, 73.8567⟩

/-- The initial state of the component's hooks. -/
noncomputable def initState : LocatorState :=
  { searchTerm := ""
    centres := mriCentresData
    userLocation := none
    mapCenter := defaultCenter
    isLoading := false }

/-- The three reason codes of a `GeolocationPositionError`
(`PERMISSION_DENIED`, `POSITION_UNAVAILABLE`, `TIMEOUT`) delivered by the
platform to the error callback. -/
inductive GeoReason
  | permissionDenied
  | positionUnavailable
  | timeout
deriving DecidableEq

/-- The outcome of an issued `getCurrentPosition` request. -/
inductive GeoResult
  | success (pos : Coordinate)
  | failure (r : GeoReason)

/-- The message of the `alert` in the unsupported-browser branch. -/
def notSupportedMessage : String := "Geolocation is not supported by your browser."

/-- The message produced by the error callback. The callback `() => ...`
receives the `GeolocationPositionError` but ignores it, so the message is
the same for every reason. -/
def locationFailureMessage (_ : GeoReason) : String := "Unable to retrieve your location."

/-- `setIsLoading(true)` at the top of `locateAndSort`. -/
def locateStart (s : LocatorState) : LocatorState := { s with isLoading := true }

/-- The success callback of `getCurrentPosition`. -/
noncomputable def onPosition (loc : Coordinate) (s : LocatorState) : LocatorState :=
  { s with
    centres := locateRanked loc mriCentresData
    userLocation := some loc
    mapCenter := loc
    isLoading := false }

/-- The error callback of `getCurrentPosition`: alert a message and clear
the loading flag. -/
def onPositionError (r : GeoReason) (s : LocatorState) : LocatorState × Option String :=
  ({ s with isLoading := false }, some (locationFailureMessage r))

/-- `locateAndSort` from the source, as a function of whether the browser
exposes `navigator.geolocation` and of the request outcome (unused when
unsupported, since no request is issued). Returns the new state and the
alert message, if any. -/
noncomputable def locateAndSort (geoSupported : Bool) (outcome : GeoResult)
    (s : LocatorState) : LocatorState × Option String :=
  let s1 := locateStart s
  if geoSupported then
    match outcome with
    | .success loc => (onPosition loc s1, none)
    | .failure r => onPositionError r s1
  else
    ({ s1 with isLoading := false }, some notSupportedMessage)

/-- The user-visible events of the component. -/
inductive Event
  | input (t : String)
  | locate (geoSupported : Bool) (outcome : GeoResult)
  | select (c : Centre)

/-- One state transition, together with the alert message it raises, if
any: typing in the search box, triggering `locateAndSort`, or clicking
"View on Map" on a displayed entry. -/
noncomputable def stepMsg (s : LocatorState) (e : Event) : LocatorState × Option String :=
  match e with
  | .input t => ({ s with searchTerm := t }, none)
  | .locate geoSupported outcome => locateAndSort geoSupported outcome s
  | .select c => ({ s with mapCenter := c.coords }, none)

/-- The state part of a transition. -/
noncomputable def step (s : LocatorState) (e : Event) : LocatorState := (stepMsg s e).1

/-- A state is reachable when some event sequence leads to it from the
initial state. -/
def Reachable (s : LocatorState) : Prop := ∃ evs : List Event, s = evs.foldl step initState

/-- Geographic bounds on a coordinate, per the spec's data model. -/
def InBounds (p : Coordinate) : Prop :=
  -90 ≤ p.lat ∧ p.lat ≤ 90 ∧ -180 ≤ p.lng ∧ p.lng ≤ 180

/-- The rendering condition `{centre.distance && (...)}` guarding the
distance badge and the "View on Map" button of a list entry: the
`distance` field must be present and truthy (a nonzero number). -/
def showsDistanceBlock (c : Centre) : Prop :=
  ∃ d : ℝ, c.distance = some d ∧ d ≠ 0

/-! ## Theorems -/

/-- C5: applying the Search Filter with the empty string as term returns
the input sequence unchanged: `filter(list, "") == list`. -/
theorem filteredCentres_empty_term_id (centres : List Centre) :
    filteredCentres centres "" = centres := by
  unfold filteredCentres
  apply List.filter_eq_self.mpr
  intro c _
  simp [matchesSearch, jsIncludes, jsToLower]

/-- C4: the Search Filter returns exactly those entries whose name or
address contains the term as a case-insensitive substring, and the result
is a sublist of the input (relative order preserved, no re-sorting). -/
theorem filteredCentres_spec (centres : List Centre) (t : String) :
    List.Sublist (filteredCentres centres t) centres ∧
    ∀ c ∈ centres,
      (c ∈ filteredCentres centres t ↔
        ((jsToLower t).data <:+: (jsToLower c.name).data ∨
          (jsToLower t).data <:+: (jsToLower c.address).data)) := by
  refine ⟨List.filter_sublist _, fun c hc => ?_⟩
  simp [filteredCentres, List.mem_filter, hc, matchesSearch, jsIncludes]

/-- Witness for C4 at a concrete list and term. -/
theorem filteredCentres_spec_witness :
    (⟨"A Clinic", "1 Main St", ⟨0, 0⟩, none⟩ : Centre) ∈
        [(⟨"A Clinic", "1 Main St", ⟨0, 0⟩, none⟩ : Centre)] ∧
    ((⟨"A Clinic", "1 Main St", ⟨0, 0⟩, none⟩ : Centre) ∈
        filteredCentres [⟨"A Clinic", "1 Main St", ⟨0, 0⟩, none⟩] "clinic" ↔
      ((jsToLower "clinic").data <:+: (jsToLower "A Clinic").data ∨
        (jsToLower "clinic").data <:+: (jsToLower "1 Main St").data)) :=
  ⟨List.Mem.head _,
    (filteredCentres_spec [⟨"A Clinic", "1 Main St", ⟨0, 0⟩, none⟩] "clinic").2 _
      (List.Mem.head _)⟩

/-- C3: on a geolocation failure the stored facilities sequence is left
exactly as it was (in original directory order if never ranked), every
other field except the loading flag is unchanged, and `isLoading` returns
to `false`. -/
theorem locateFailure_frame (s : LocatorState) (r : GeoReason) :
    (step s (.locate true (.failure r))).centres = s.centres ∧
    (step s (.locate true (.failure r))).isLoading = false ∧
    (step s (.locate true (.failure r))).searchTerm = s.searchTerm ∧
    (step s (.locate true (.failure r))).userLocation = s.userLocation ∧
    (step s (.locate true (.failure r))).mapCenter = s.mapCenter :=
  ⟨rfl, rfl, rfl, rfl, rfl⟩

/-- C2 counterexample: two distinct failure reasons produce the very same
surfaced message, so distinct reasons do not yield distinguishable
messages. -/
theorem locateFailure_message_counterexample :
    GeoReason.permissionDenied ≠ GeoReason.timeout ∧
    (stepMsg initState (.locate true (.failure .permissionDenied))).2 =
      (stepMsg initState (.locate true (.failure .timeout))).2 :=
  ⟨by decide, rfl⟩

/-- C2 amended: a geolocation failure carries exactly one of the three
platform reason tags, but the error callback ignores the tag and surfaces
the single generic message "Unable to retrieve your location." for every
reason. -/
theorem locateFailure_message_generic (s : LocatorState) (r : GeoReason) :
    (stepMsg s (.locate true (.failure r))).2 = some "Unable to retrieve your location." ∧
    (r = .permissionDenied ∨ r = .positionUnavailable ∨ r = .timeout) := by
  refine ⟨rfl, ?_⟩
  cases r
  · exact .inl rfl
  · exact .inr (.inl rfl)
  · exact .inr (.inr rfl)

/-- C8: selecting a displayed entry ("View on Map") sets the focused
coordinate to that entry's location and changes nothing else. -/
theorem select_frame (s : LocatorState) (c : Centre) :
    (step s (.select c)).mapCenter = c.coords ∧
    (step s (.select c)).centres = s.centres ∧
    (step s (.select c)).searchTerm = s.searchTerm ∧
    (step s (.select c)).userLocation = s.userLocation ∧
    (step s (.select c)).isLoading = s.isLoading :=
  ⟨rfl, rfl, rfl, rfl, rfl⟩

/-- C10: with no geolocation capability, the locate action surfaces the
"not supported" message — distinct from every `LocationError` message —
sets `isLoading` true and then back to `false`, leaves every other field
unchanged, and issues no position request (the result does not depend on
any request outcome). -/
theorem locate_unsupported_spec (s : LocatorState) (o1 o2 : GeoResult) :
    (locateStart s).isLoading = true ∧
    (step s (.locate false o1)).isLoading = false ∧
    (step s (.locate false o1)).centres = s.centres ∧
    (step s (.locate false o1)).searchTerm = s.searchTerm ∧
    (step s (.locate false o1)).userLocation = s.userLocation ∧
    (step s (.locate false o1)).mapCenter = s.mapCenter ∧
    (stepMsg s (.locate false o1)).2 = some notSupportedMessage ∧
    (∀ r, notSupportedMessage ≠ locationFailureMessage r) ∧
    stepMsg s (.locate false o1) = stepMsg s (.locate false o2) := by
  refine ⟨rfl, rfl, rfl, rfl, rfl, rfl, rfl, fun r => ?_, rfl⟩
  cases r <;> decide

/-- Every single transition preserves the length of the stored facilities
sequence (it equals the static directory length). -/
theorem step_preserves_centres_length (s : LocatorState) (e : Event)
    (h : s.centres.length = mriCentresData.length) :
    (step s e).centres.length = mriCentresData.length := by
  cases e with
  | input t => exact h
  | select c => exact h
  | locate geoSupported outcome =>
    cases geoSupported with
    | false => exact h
    | true =>
      cases outcome with
      | failure r => exact h
      | success loc =>
        show (locateRanked loc mriCentresData).length = mriCentresData.length
        simp [locateRanked, sortByDistance, annotateWithDistance]

/-- Folding any event sequence preserves the facilities-length invariant. -/
theorem foldl_step_centres_length (evs : List Event) (s : LocatorState)
    (h : s.centres.length = mriCentresData.length) :
    (evs.foldl step s).centres.length = mriCentresData.length := by
  induction evs generalizing s with
  | nil => exact h
  | cons e evs ih => exact ih _ (step_preserves_centres_length s e h)

/-- C6: in every reachable state the facilities sequence has the length of
the static directory, and typing in the search box never mutates the
stored facilities sequence (filtering is display-only, recomputed from the
state by the pure `filteredCentres`). -/
theorem reachable_invariant (s : LocatorState) (h : Reachable s) :
    s.centres.length = mriCentresData.length ∧
    ∀ t : String, (step s (.input t)).centres = s.centres := by
  obtain ⟨evs, rfl⟩ := h
  exact ⟨foldl_step_centres_length evs initState rfl, fun t => rfl⟩

/-- Witness for C6 at the initial state. -/
theorem reachable_invariant_witness :
    Reachable initState ∧ initState.centres.length = mriCentresData.length :=
  ⟨⟨[], rfl⟩, (reachable_invariant initState ⟨[], rfl⟩).1⟩

/-- C9: the rendering of the distance badge and the "View on Map" button
is gated on the truthiness of `centre.distance`, so an entry whose
computed distance is exactly 0 omits both, while every entry with a
positive distance shows them. -/
theorem distance_zero_hides_controls (c : Centre) :
    (c.distance = some 0 → ¬ showsDistanceBlock c) ∧
    (∀ d : ℝ, c.distance = some d → 0 < d → showsDistanceBlock c) := by
  constructor
  · intro h hs
    obtain ⟨d, hd, hne⟩ := hs
    rw [h, Option.some_inj] at hd
    exact hne hd.symm
  · intro d h hd
    exact ⟨d, h, ne_of_gt hd⟩

/-- Witness for C9: a facility at distance exactly 0 is rendered without
the distance block; one at distance 1 is rendered with it. -/
theorem distance_zero_hides_controls_witness :
    ((⟨"A", "x", ⟨0, 0⟩, some 0⟩ : Centre).distance = some 0 ∧
      ¬ showsDistanceBlock ⟨"A", "x", ⟨0, 0⟩, some 0⟩) ∧
    ((⟨"A", "x", ⟨0, 0⟩, some 1⟩ : Centre).distance = some 1 ∧ (0 : ℝ) < 1 ∧
      showsDistanceBlock ⟨"A", "x", ⟨0, 0⟩, some 1⟩) :=
  ⟨⟨rfl, (distance_zero_hides_controls _).1 rfl⟩,
    ⟨rfl, by norm_num, (distance_zero_hides_controls _).2 1 rfl (by norm_num)⟩⟩

/-- The sort comparator is transitive. -/
theorem distKey_le_trans (a b c : Centre)
    (hab : decide (distKey a ≤ distKey b) = true)
    (hbc : decide (distKey b ≤ distKey c) = true) :
    decide (distKey a ≤ distKey c) = true := by
  simp only [decide_eq_true_eq] at *
  exact le_trans hab hbc

/-- The sort comparator is total. -/
theorem distKey_le_total (a b : Centre) :
    (decide (distKey a ≤ distKey b) || decide (distKey b ≤ distKey a)) = true := by
  simpa using le_total (distKey a) (distKey b)

/-- C1: for every resolved user coordinate and directory, the success path
of `locateAndSort` produces a sequence that is a permutation of the
distance-annotated directory (no entries dropped or duplicated, same
length), in which every entry carries `distance = getDistance(user, entry)`,
sorted ascending by distance with ties keeping the original directory
order (stability of the sort); the stored state after a successful locate
is exactly this pipeline applied to the static directory. -/
theorem locateRanked_spec (loc : Coordinate) (directory : List Centre) :
    (locateRanked loc directory).Perm (annotateWithDistance loc directory) ∧
    (∀ c ∈ locateRanked loc directory, c.distance = some (getDistance loc c.coords)) ∧
    (locateRanked loc directory).length = directory.length ∧
    (locateRanked loc directory).Pairwise (fun a b => distKey a ≤ distKey b) ∧
    (∀ a b : Centre, List.Sublist [a, b] (annotateWithDistance loc directory) →
      distKey a = distKey b → List.Sublist [a, b] (locateRanked loc directory)) ∧
    (∀ s : LocatorState,
      (step s (.locate true (.success loc))).centres = locateRanked loc mriCentresData) := by
  refine ⟨List.mergeSort_perm _ _, ?_, ?_, ?_, ?_, fun s => rfl⟩
  · intro c hc
    simp only [locateRanked, sortByDistance, annotateWithDistance,
      List.mem_mergeSort] at hc
    obtain ⟨orig, _, rfl⟩ := List.mem_map.mp hc
    rfl
  · simp [locateRanked, sortByDistance, annotateWithDistance]
  · exact (List.sorted_mergeSort distKey_le_trans distKey_le_total _).imp
      (fun h => of_decide_eq_true h)
  · intro a b hsub htie
    exact List.pair_sublist_mergeSort distKey_le_trans distKey_le_total
      (decide_eq_true htie.le) hsub

/-- Witness for C1: two facilities at the same coordinates tie in
distance, and the ranked result keeps them in original directory order. -/
theorem locateRanked_spec_witness :
    List.Sublist
      [(⟨"A", "a1", ⟨10, 20⟩, some (getDistance ⟨10, 20⟩ ⟨10, 20⟩)⟩ : Centre),
        ⟨"B", "a2", ⟨10, 20⟩, some (getDistance ⟨10, 20⟩ ⟨10, 20⟩)⟩]
      (locateRanked ⟨10, 20⟩ [⟨"A", "a1", ⟨10, 20⟩, none⟩, ⟨"B", "a2", ⟨10, 20⟩, none⟩]) :=
  (locateRanked_spec ⟨10, 20⟩
      [⟨"A", "a1", ⟨10, 20⟩, none⟩, ⟨"B", "a2", ⟨10, 20⟩, none⟩]).2.2.2.2.1
    _ _ (List.Sublist.refl _) rfl

/-- `atan2` of two non-negative arguments is non-negative. -/
theorem atan2_nonneg {y x : ℝ} (hy : 0 ≤ y) (hx : 0 ≤ x) : 0 ≤ atan2 y x := by
  unfold atan2
  rcases lt_or_eq_of_le hx with h | rfl
  · rw [if_pos h, ← Real.arctan_zero]
    exact Real.arctan_strictMono.monotone (div_nonneg hy h.le)
  · simp only [lt_self_iff_false, if_false]
    split_ifs with h1 h2
    · positivity
    · exact absurd h2 (not_lt.mpr hy)
    · exact le_refl 0

/-- The distance computed by `getDistance` is non-negative. -/
theorem getDistance_nonneg (p1 p2 : Coordinate) : 0 ≤ getDistance p1 p2 := by
  unfold getDistance
  have h := atan2_nonneg (Real.sqrt_nonneg (haversineA p1 p2))
    (Real.sqrt_nonneg (1 - haversineA p1 p2))
  exact mul_nonneg (by norm_num) (mul_nonneg (by norm_num) h)

/-- The haversine intermediate value is symmetric in its arguments. -/
theorem haversineA_comm (p q : Coordinate) : haversineA p q = haversineA q p := by
  unfold haversineA
  have h1 : q.lat - p.lat = -(p.lat - q.lat) := by ring
  have h2 : q.lng - p.lng = -(p.lng - q.lng) := by ring
  simp only [h1, h2, neg_mul, neg_div, Real.sin_neg]
  ring

/-- `getDistance` from a point to itself is zero. -/
theorem getDistance_self (p : Coordinate) : getDistance p p = 0 := by
  have hA : haversineA p p = 0 := by
    unfold haversineA
    simp
  unfold getDistance
  rw [hA, Real.sqrt_zero, sub_zero, Real.sqrt_one]
  unfold atan2
  rw [if_pos one_pos]
  simp

/-- C7: the Distance Calculator is a total function on coordinates within
geographic bounds with a (finite real) non-negative result, it is
symmetric, and the distance from a point to itself is 0. -/
theorem getDistance_props (a b : Coordinate) (ha : InBounds a) (hb : InBounds b) :
    0 ≤ getDistance a b ∧ getDistance a b = getDistance b a ∧ getDistance a a = 0 :=
  ⟨getDistance_nonneg a b,
    by unfold getDistance; rw [haversineA_comm], getDistance_self a⟩

/-- Witness for C7 at two concrete in-bounds coordinates. -/
theorem getDistance_props_witness :
    InBounds ⟨18.5204, 73.8567⟩ ∧ InBounds ⟨18.4556, 74.0219⟩ ∧
      (0 ≤ getDistance ⟨18.5204, 73.8567⟩ ⟨18.4556, 74.0219⟩ ∧
        getDistance ⟨18.5204, 73.8567⟩ ⟨18.4556, 74.0219⟩ =
          getDistance ⟨18.4556, 74.0219⟩ ⟨18.5204, 73.8567⟩ ∧
        getDistance ⟨18.5204, 73.8567⟩ ⟨18.5204, 73.8567⟩ = 0) :=
  ⟨by norm_num [InBounds], by norm_num [InBounds],
    getDistance_props _ _ (by norm_num [InBounds]) (by norm_num [InBounds])⟩

end MedScope
